import Mathlib

/-!
Verification of the whisper-rs-ggml build orchestrator (src/sys/build.rs).

The build script is a single sequential pipeline: capability resolution,
source acquisition, staging, interface generation, build configuration and
invocation of the external cmake tool, link-graph emission, runtime DLL
placement, and version extraction.  We shallowly embed it as a pure function
from an explicit configuration (compile-time feature set, target OS,
debug-assertions flag), an environment snapshot (an ordered association list,
mirroring env::var and env::vars), a filesystem snapshot (existence,
directory non-emptiness and file contents as functions of path strings) and
an oracle for the external processes (git, bindgen) to a trace of emitted
events (cargo directives, warnings, filesystem operations, the cmake
invocation with its full ordered define list) together with an outcome
(normal return or panic with a message).

Paths are joined with a forward slash; machine strings are Lean Strings.
The cmake invocation is treated as an opaque blocking call that does not
change the modelled filesystem (the probed shared ggml artifacts are
produced by an earlier external build, not by this invocation).
-/

/-- Substring-free helpers over the character lists of strings, written with
structural recursion so that concrete evaluation reduces in the kernel. -/
def strStartsWith (s pre : String) : Bool :=
  pre.data.isPrefixOf s.data

def strContains (hay needle : String) : Bool :=
  (List.range (hay.data.length + 1)).any (fun i => needle.data.isPrefixOf (hay.data.drop i))

def strDrop (s : String) (n : Nat) : String :=
  String.mk (s.data.drop n)

/-- Split a string at newline characters, mirroring BufReader::lines. -/
def splitLinesAux : List Char → List Char → List String
  | [], acc => [String.mk acc.reverse]
  | c :: cs, acc =>
    if c = '\n' then String.mk acc.reverse :: splitLinesAux cs []
    else splitLinesAux cs (c :: acc)

def splitLines (s : String) : List String :=
  splitLinesAux s.data []

/-- Remove every trailing right parenthesis, mirroring trim_end_matches. -/
def trimEndRParens (s : String) : String :=
  String.mk ((s.data.reverse.dropWhile (fun c => c = ')')).reverse)

/-- Split a path at slashes. -/
def splitSlashAux : List Char → List Char → List String
  | [], acc => [String.mk acc.reverse]
  | c :: cs, acc =>
    if c = '/' then String.mk acc.reverse :: splitSlashAux cs []
    else splitSlashAux cs (c :: acc)

def splitSlash (s : String) : List String :=
  splitSlashAux s.data []

def joinSlash : List String → String
  | [] => ""
  | [x] => x
  | x :: xs => x ++ "/" ++ joinSlash xs

/-- PathBuf::join with a single component. -/
def pjoin (a b : String) : String := a ++ "/" ++ b

/-- PathBuf::parent: drop the last path component. -/
def parentPath (p : String) : Option String :=
  let parts := splitSlash p
  if parts.length ≤ 1 then none else some (joinSlash parts.dropLast)

/-- Last path component (file_name of a path built by joins). -/
def lastComponent (p : String) : String :=
  (splitSlash p).getLastD ""

/-- q is the path p itself or lies strictly below it. -/
def pathUnder (p q : String) : Bool :=
  q == p || strStartsWith q (p ++ "/")

/-- Environment snapshot: ordered key-value pairs as env::vars yields them. -/
abbrev Env := List (String × String)

def envGet (env : Env) (k : String) : Option String :=
  List.lookup k env

/-- Filesystem snapshot: existence of a path, non-emptiness of a directory
(read_dir().count() > 0), and the byte content of a file. -/
structure FS where
  ex : String → Bool
  hasContents : String → Bool
  content : String → Option String

def FS.removeDirAll (fs : FS) (p : String) : FS :=
  { ex := fun q => if pathUnder p q then false else fs.ex q
    hasContents := fun q => if pathUnder p q then false else fs.hasContents q
    content := fun q => if pathUnder p q then none else fs.content q }

def FS.createDirAll (fs : FS) (p : String) : FS :=
  { fs with ex := fun q => if q == p then true else fs.ex q }

def remapPath (src dst q : String) : String :=
  src ++ strDrop q dst.length

/-- Make the subtree rooted at dst mirror the subtree rooted at src. -/
def FS.copyTree (fs : FS) (src dst : String) : FS :=
  { ex := fun q => if pathUnder dst q then fs.ex (remapPath src dst q) else fs.ex q
    hasContents := fun q => if pathUnder dst q then fs.hasContents (remapPath src dst q) else fs.hasContents q
    content := fun q => if pathUnder dst q then fs.content (remapPath src dst q) else fs.content q }

/-- fs_extra::dir::copy with default options: copy the directory src into the
directory dstParent, creating dstParent/(file_name of src). -/
def FS.copyDirInto (fs : FS) (src dstParent : String) : FS :=
  fs.copyTree src (pjoin dstParent (lastComponent src))

/-- std::fs::rename of a directory. -/
def FS.renameDir (fs : FS) (src dst : String) : FS :=
  (fs.copyTree src dst).removeDirAll src

/-- Effect of a successful fresh git clone into path p: the directory exists
and is non-empty afterwards. -/
def FS.cloneInto (fs : FS) (p : String) : FS :=
  { fs with
    ex := fun q => if q == p then true else fs.ex q
    hasContents := fun q => if q == p then true else fs.hasContents q }

def FS.writeFile (fs : FS) (p c : String) : FS :=
  { fs with
    ex := fun q => if q == p then true else fs.ex q
    content := fun q => if q == p then some c else fs.content q }

def FS.removeFile (fs : FS) (p : String) : FS :=
  { fs with
    ex := fun q => if q == p then false else fs.ex q
    content := fun q => if q == p then none else fs.content q }

/-- Compile-time feature set of the crate (the cfg! toggles in build.rs). -/
structure Features where
  coreml : Bool
  metal : Bool
  vulkan : Bool
  cuda : Bool
  hipblas : Bool
  openblas : Bool
  openmp : Bool
  useSharedGgml : Bool
  forceDebug : Bool
  intelSycl : Bool
  deriving Repr, DecidableEq

/-- Target operating system as seen by cfg!(target_os = ...). Everything
that is neither windows nor macos behaves like the generic unix arm. -/
inductive OS where
  | windows
  | macos
  | linux
  deriving Repr, DecidableEq, BEq

/-- The full ordered cmake configuration handed to the external build tool:
profile, -D defines in the order Config::define was called, and C++ flags. -/
structure CMakePlan where
  root : String
  profile : String
  defines : List (String × String)
  cxxflags : List String
  deriving Repr, DecidableEq

/-- Observable actions of the build script. -/
inductive Event where
  | linkLib (kind name : String)
  | linkSearch (kind path : String)
  | linkSearchRec (dir : String)
  | warning (msg : String)
  | rerunIfChanged (path : String)
  | rerunIfEnvChanged (name : String)
  | gitSubmoduleUpdate (dir : String)
  | gitClone (url dst : String)
  | fsRemoveDirAll (p : String)
  | fsCreateDirAll (p : String)
  | fsRenameTry (src dst : String)
  | fsCopyDir (src dstParent : String)
  | fsCopyFile (src dst : String)
  | fsRemoveFile (p : String)
  | bindgenGenerate
  | cmakeBuild (plan : CMakePlan)
  | versionMeta (v : String)
  deriving Repr, DecidableEq

def Event.isCmake : Event → Bool
  | .cmakeBuild _ => true
  | _ => false

def Event.isVersion : Event → Bool
  | .versionMeta _ => true
  | _ => false

def Event.isWarning : Event → Bool
  | .warning _ => true
  | _ => false

/-- True when the trace contains no cmake invocation. -/
def cmakeFree (l : List Event) : Bool :=
  l.all (fun e => !e.isCmake)

/-- True when the trace contains no emitted version string. -/
def versionFree (l : List Event) : Bool :=
  l.all (fun e => !e.isVersion)

/-- Final state of one run of the build script. -/
inductive Outcome where
  | ok
  | panicked (msg : String)
  deriving Repr, DecidableEq

def Outcome.isPanic : Outcome → Bool
  | .ok => false
  | .panicked _ => true

/-- Results of the external processes the script shells out to. -/
structure Oracle where
  submoduleResult : Option Bool
  fsAfterSubmodule : FS
  cloneResult : Option Bool
  renameOk : Bool
  bindgenOk : Bool
  generated : String

/-- From https://github.com/alexcrichton/cc-rs: choose the C++ standard
library to link for a target triple (build.rs get_cpp_link_stdlib). -/
def get_cpp_link_stdlib (target : String) : Option String :=
  if strContains target "msvc" then none
  else if strContains target "apple" || strContains target "freebsd" || strContains target "openbsd" then some "c++"
  else if strContains target "android" then some "c++_shared"
  else some "stdc++"

/-- The project-version declaration scanned for in CMakeLists.txt. -/
def versionPatStr : String := "project(\"whisper.cpp\" VERSION "

def matchesVersionLine (l : String) : Bool :=
  strStartsWith l versionPatStr

def versionFromLines : List String → Option String
  | [] => none
  | l :: ls =>
    if matchesVersionLine l then some (trimEndRParens (strDrop l versionPatStr.length))
    else versionFromLines ls

/-- build.rs get_whisper_cpp_version applied to the text of the staged
CMakeLists.txt: scan line by line for the version declaration and return the
embedded version literal, or none when no line matches. -/
def get_whisper_cpp_version (descriptor : String) : Option String :=
  versionFromLines (splitLines descriptor)

/-- Warnings emitted while reading the three DEP_GGML_RS_GGML_WHISPER
variables exported by ggml-rs (build.rs lines 105-147). -/
def ggmlWarnings (env : Env) : List Event :=
  (match envGet env "DEP_GGML_RS_GGML_WHISPER_LIB_DIR" with
   | some v => [Event.warning ("[GGML] Found DEP_GGML_RS_GGML_WHISPER_LIB_DIR: " ++ v)]
   | none => [Event.warning "[GGML] DEP_GGML_RS_GGML_WHISPER_LIB_DIR not set"])
  ++ (match envGet env "DEP_GGML_RS_GGML_WHISPER_BIN_DIR" with
      | some v => [Event.warning ("[GGML] Found DEP_GGML_RS_GGML_WHISPER_BIN_DIR: " ++ v)]
      | none => [Event.warning "[GGML] DEP_GGML_RS_GGML_WHISPER_BIN_DIR not set"])
  ++ (match envGet env "DEP_GGML_RS_GGML_WHISPER_BASENAME" with
      | some v => [Event.warning ("[GGML] Found DEP_GGML_RS_GGML_WHISPER_BASENAME: " ++ v)]
      | none => [Event.warning "[GGML] DEP_GGML_RS_GGML_WHISPER_BASENAME not set, using fallback"])

/-- The shared ggml artifact base name: the exported variable if present,
otherwise the fallback literal (build.rs lines 128-136). -/
def ggml_basename (env : Env) : String :=
  (envGet env "DEP_GGML_RS_GGML_WHISPER_BASENAME").getD "ggml_whisper"

/-- The ggml include directory fallback chain (build.rs lines 137-147). -/
def ggml_include_dir (env : Env) : Option String :=
  match envGet env "DEP_GGML_RS_GGML_WHISPER_INCLUDE" with
  | some i => some i
  | none =>
    match envGet env "DEP_GGML_RS_INCLUDE" with
    | some i => some i
    | none =>
      match envGet env "DEP_GGML_INCLUDE" with
      | some i => some i
      | none =>
        (envGet env "DEP_GGML_RS_GGML_WHISPER_LIB_DIR").bind
          (fun d => (parentPath d).map (fun p => p ++ "/include"))

/-- The cuda block of the preamble (build.rs lines 51-69): link the cuda
runtime libraries; on windows the CUDA_PATH variable is unwrapped (a panic
when absent), elsewhere fixed search paths are registered. -/
def cudaStepRun (f : Features) (os : OS) (env : Env) : List Event × Option String :=
  if f.cuda then
    let libs := [Event.linkLib "" "cublas", Event.linkLib "" "cudart",
                 Event.linkLib "" "cublasLt", Event.linkLib "" "cuda"]
    if os == OS.windows then
      match envGet env "CUDA_PATH" with
      | none => (libs, some "called Result::unwrap on an Err value: NotPresent (CUDA_PATH)")
      | some p => (libs ++ [Event.linkSearch "" (pjoin p "lib/x64")], none)
    else
      (libs ++ [Event.linkLib "" "culibos",
                Event.linkSearch "" "/usr/local/cuda/lib64",
                Event.linkSearch "" "/usr/local/cuda/lib64/stubs",
                Event.linkSearch "" "/opt/cuda/lib64",
                Event.linkSearch "" "/opt/cuda/lib64/stubs"], none)
  else ([], none)

/-- The hipblas block of the preamble (build.rs lines 70-91): link the ROCm
libraries; windows is an unconditional panic, elsewhere the HIP_PATH
variable (default /opt/rocm) provides the search path. -/
def hipStepRun (f : Features) (os : OS) (env : Env) : List Event × Option String :=
  if f.hipblas then
    let libs := [Event.linkLib "" "hipblas", Event.linkLib "" "rocblas", Event.linkLib "" "amdhip64"]
    if os == OS.windows then
      (libs, some "Due to a problem with the last revision of the ROCm 5.7 library, it is not possible to compile the library for the windows environment.")
    else
      (libs ++ [Event.rerunIfEnvChanged "HIP_PATH",
                Event.linkSearch "" (pjoin ((envGet env "HIP_PATH").getD "/opt/rocm") "lib")], none)
  else ([], none)

/-- Directives emitted by the top of main before the vendor tree is touched
(build.rs lines 13-103): C++ runtime, apple frameworks, the coreml companion
library, system libraries of each enabled accelerator, wrapper.h rerun.
Returns the events together with an optional panic message. -/
def preambleRun (f : Features) (os : OS) (target : String) (env : Env) : List Event × Option String :=
  let ev0 := match get_cpp_link_stdlib target with
    | some s => [Event.linkLib "dylib" s]
    | none => []
  let ev1 := ev0 ++ (if strContains target "apple" then
      [Event.linkLib "framework" "Accelerate"]
      ++ (if f.coreml then [Event.linkLib "framework" "Foundation", Event.linkLib "framework" "CoreML"] else [])
      ++ (if f.metal then [Event.linkLib "framework" "Foundation", Event.linkLib "framework" "Metal", Event.linkLib "framework" "MetalKit"] else [])
    else [])
  let ev2 := ev1 ++ (if f.coreml then [Event.linkLib "static" "whisper.coreml"] else [])
  let ev3 := ev2 ++ (if f.openblas then
      (match envGet env "OPENBLAS_PATH" with
       | some p => [Event.linkSearch "" (pjoin p "lib")]
       | none => [])
      ++ [if os == OS.windows then Event.linkLib "" "libopenblas" else Event.linkLib "" "openblas"]
    else [])
  match cudaStepRun f os env with
  | (cev, some m) => (ev3 ++ cev, some m)
  | (cev, none) =>
    let ev4 := ev3 ++ cev
    match hipStepRun f os env with
    | (hev, some m) => (ev4 ++ hev, some m)
    | (hev, none) =>
      let ev5 := ev4 ++ hev
      let ev6 := ev5 ++ (if f.openmp then
          (if strContains target "gnu" then [Event.linkLib "" "gomp"]
           else if strContains target "apple" then
             [Event.linkLib "" "omp", Event.linkSearch "" "/opt/homebrew/opt/libomp/lib"]
           else [])
        else [])
      (ev6 ++ [Event.rerunIfChanged "wrapper.h"], none)

/-- The source-acquisition cascade (build.rs lines 164-224): reuse a
non-empty local vendor tree, else try submodule init, else shallow clone
into a temp directory followed by rename, with a recursive-copy fallback
when the rename fails. -/
def acquisitionRun (out manifestDir src : String) (fs : FS) (orc : Oracle) : List Event × Except String FS :=
  if fs.ex src && fs.hasContents src then ([], .ok fs)
  else
    let ev0 := [Event.warning "whisper.cpp not found, downloading from GitHub...",
                Event.gitSubmoduleUpdate "whisper.cpp"]
    let fs1 := match orc.submoduleResult with
      | none => fs
      | some _ => orc.fsAfterSubmodule
    if orc.submoduleResult == some true && fs1.ex src && fs1.hasContents src then
      (ev0 ++ [Event.warning "Successfully initialized whisper.cpp submodule"], .ok fs1)
    else
      let temp := pjoin out "whisper.cpp-temp"
      let ev1 := ev0 ++ [Event.warning "Submodule init failed, cloning whisper.cpp directly..."]
      let (ev2, fs2) :=
        if fs1.ex temp then (ev1 ++ [Event.fsRemoveDirAll temp], fs1.removeDirAll temp)
        else (ev1, fs1)
      let ev3 := ev2 ++ [Event.gitClone "https://github.com/ggerganov/whisper.cpp.git" temp]
      match orc.cloneResult with
      | none => (ev3, .error "Failed to run git clone. Please ensure git is installed.")
      | some false => (ev3, .error "Failed to download whisper.cpp. Please ensure git is installed and you have internet access.")
      | some true =>
        let fs3 := fs2.cloneInto temp
        let (ev4, fs4) :=
          if fs3.ex src then (ev3 ++ [Event.fsRemoveDirAll src], fs3.removeDirAll src)
          else (ev3, fs3)
        let ev5 := ev4 ++ [Event.fsCreateDirAll manifestDir]
        let fs5 := fs4.createDirAll manifestDir
        let ev6 := ev5 ++ [Event.fsRenameTry temp src]
        if orc.renameOk then
          (ev6 ++ [Event.warning "Successfully downloaded whisper.cpp"], .ok (fs5.renameDir temp src))
        else
          if fs5.ex temp then
            (ev6 ++ [Event.fsCopyDir temp manifestDir, Event.fsRemoveDirAll temp,
                     Event.warning "Successfully downloaded whisper.cpp"],
             .ok ((fs5.copyDirInto temp manifestDir).removeDirAll temp))
          else
            (ev6 ++ [Event.fsCopyDir temp manifestDir], .error "Failed to copy cloned whisper.cpp")

/-- Staging (build.rs lines 226-249): copy the vendor tree into the build
workspace unless the workspace already holds the build descriptor. -/
def stagingRun (root src out : String) (fs : FS) : List Event × Except String FS :=
  if fs.ex root && fs.ex (pjoin root "CMakeLists.txt") then ([], .ok fs)
  else
    let (ev0, fs0) :=
      if fs.ex root then ([Event.fsRemoveDirAll root], fs.removeDirAll root)
      else ([], fs)
    let ev1 := ev0 ++ [Event.fsCreateDirAll root]
    let fs1 := fs0.createDirAll root
    let ev2 := ev1 ++ [Event.fsCopyDir src out]
    if fs1.ex src then
      let fs2 := fs1.copyDirInto src out
      if fs2.ex (pjoin root "CMakeLists.txt") then (ev2, .ok fs2)
      else (ev2, .error "CMakeLists.txt not found after copy")
    else (ev2, .error "Failed to copy whisper sources")

/-- Interface generation (build.rs lines 251-329): either copy the pinned
snapshot directly (WHISPER_DONT_GENERATE_BINDINGS), or run bindgen, with the
pinned snapshot as the non-fatal fallback when generation fails.  In shared
mode an absent include directory is fatal before generation is attempted. -/
def bindingsRun (f : Features) (env : Env) (out : String) (includeDir : Option String)
    (fs : FS) (orc : Oracle) : List Event × Except String FS :=
  if (envGet env "WHISPER_DONT_GENERATE_BINDINGS").isSome then
    match fs.content "src/bindings.rs" with
    | none => ([Event.fsCopyFile "src/bindings.rs" (pjoin out "bindings.rs")], .error "Failed to copy bindings.rs")
    | some c =>
      ([Event.fsCopyFile "src/bindings.rs" (pjoin out "bindings.rs")],
       .ok (fs.writeFile (pjoin out "bindings.rs") c))
  else
    if f.useSharedGgml && includeDir.isNone then
      ([], .error "use-shared-ggml feature is enabled but DEP_GGML_RS_GGML_WHISPER_LIB_DIR is not set. Make sure ggml-rs is properly configured and built.")
    else
      if orc.bindgenOk then
        ([Event.bindgenGenerate], .ok (fs.writeFile (pjoin out "bindings.rs") orc.generated))
      else
        ([Event.bindgenGenerate,
          Event.warning "Unable to generate bindings",
          Event.warning "Using bundled bindings.rs, which may be out of date",
          Event.fsCopyFile "src/bindings.rs" (pjoin out "bindings.rs")],
         match fs.content "src/bindings.rs" with
         | none => .error "Unable to copy bindings.rs"
         | some c => .ok (fs.writeFile (pjoin out "bindings.rs") c))

/-- Version-extraction step of main (build.rs lines 743-748): read the
staged descriptor, panic when the file is unreadable or the declaration is
missing, else emit the cargo version metadata line. -/
def versionRun (root : String) (fs : FS) : List Event × Option String :=
  match fs.content (pjoin root "CMakeLists.txt") with
  | none => ([], some "Failed to read whisper.cpp CMake config")
  | some txt =>
    match get_whisper_cpp_version txt with
    | none => ([], some "Could not find whisper.cpp version declaration")
    | some v => ([Event.versionMeta v], none)

/-- Environment fold shared by both configuration branches (build.rs lines
450-458 and 673-681): every WHISPER_ variable except
WHISPER_DONT_GENERATE_BINDINGS and every CMAKE_ variable becomes a define,
in environment order. -/
def envDefines (env : Env) : List (String × String) :=
  env.filter (fun kv =>
    (strStartsWith kv.fst "WHISPER_" && !(kv.fst == "WHISPER_DONT_GENERATE_BINDINGS"))
    || strStartsWith kv.fst "CMAKE_")

def coremlDefines : List (String × String) :=
  [("WHISPER_COREML", "ON"), ("WHISPER_COREML_ALLOW_FALLBACK", "1")]

def buildTypeDefines (dbg forceDebug : Bool) : List (String × String) :=
  if dbg || forceDebug then [("CMAKE_BUILD_TYPE", "RelWithDebInfo")]
  else [("CMAKE_BUILD_TYPE", "Release")]

/-- Embedded-mode defines set before the environment fold (build.rs lines
578-671), in the order Config::define is called on the success path. -/
def embPre (f : Features) (env : Env) (dbg : Bool) : List (String × String) :=
  [("BUILD_SHARED_LIBS", "OFF"), ("WHISPER_ALL_WARNINGS", "OFF"),
   ("WHISPER_ALL_WARNINGS_3RD_PARTY", "OFF"), ("WHISPER_BUILD_TESTS", "OFF"),
   ("WHISPER_BUILD_EXAMPLES", "OFF")]
  ++ (if f.coreml then coremlDefines else [])
  ++ (if f.cuda then [("GGML_CUDA", "ON"), ("CMAKE_POSITION_INDEPENDENT_CODE", "ON"),
                      ("CMAKE_CUDA_FLAGS", "-Xcompiler=-fPIC")] else [])
  ++ (if f.hipblas then [("GGML_HIP", "ON"), ("CMAKE_C_COMPILER", "hipcc"),
                         ("CMAKE_CXX_COMPILER", "hipcc")]
        ++ (match envGet env "AMDGPU_TARGETS" with
            | some v => [("AMDGPU_TARGETS", v)]
            | none => []) else [])
  ++ (if f.vulkan then [("GGML_VULKAN", "ON")] else [])
  ++ (if f.openblas then [("GGML_BLAS", "ON"), ("GGML_BLAS_VENDOR", "OpenBLAS")]
        ++ (match envGet env "BLAS_INCLUDE_DIRS" with
            | some v => [("BLAS_INCLUDE_DIRS", v)]
            | none => []) else [])
  ++ (if f.metal then [("GGML_METAL", "ON"), ("GGML_METAL_NDEBUG", "ON"),
                       ("GGML_METAL_EMBED_LIBRARY", "ON")]
      else [("GGML_METAL", "OFF")])
  ++ buildTypeDefines dbg f.forceDebug

/-- Embedded-mode defines set after the environment fold (build.rs lines
683-693): the OpenMP switch and the SYCL toolchain overrides. -/
def embPost (f : Features) : List (String × String) :=
  (if f.openmp then [] else [("GGML_OPENMP", "OFF")])
  ++ (if f.intelSycl then [("BUILD_SHARED_LIBS", "ON"), ("GGML_SYCL", "ON"),
                           ("GGML_SYCL_TARGET", "INTEL"), ("CMAKE_C_COMPILER", "icx"),
                           ("CMAKE_CXX_COMPILER", "icpx")] else [])

/-- The vulkan loader directives of the embedded configuration phase
(build.rs lines 614-641): fatal without VULKAN_SDK on windows and macos. -/
def vulkanStepRun (f : Features) (os : OS) (env : Env) : List Event × Option String :=
  if f.vulkan then
    match os with
    | OS.windows =>
      match envGet env "VULKAN_SDK" with
      | none => ([Event.rerunIfEnvChanged "VULKAN_SDK", Event.linkLib "" "vulkan-1"],
                 some "Please install Vulkan SDK and ensure that VULKAN_SDK env variable is set")
      | some p => ([Event.rerunIfEnvChanged "VULKAN_SDK", Event.linkLib "" "vulkan-1",
                    Event.linkSearch "" (pjoin p "Lib")], none)
    | OS.macos =>
      match envGet env "VULKAN_SDK" with
      | none => ([Event.rerunIfEnvChanged "VULKAN_SDK", Event.linkLib "" "vulkan"],
                 some "Please install Vulkan SDK and ensure that VULKAN_SDK env variable is set")
      | some p => ([Event.rerunIfEnvChanged "VULKAN_SDK", Event.linkLib "" "vulkan",
                    Event.linkSearch "" (pjoin p "lib")], none)
    | OS.linux => ([Event.linkLib "" "vulkan"], none)
  else ([], none)

/-- Events and possible panic of the embedded-mode configuration phase
before the cmake call (build.rs lines 588-651): the windows advapi32 link,
the hip rerun line, the vulkan loader directives and the fatal OpenBLAS
include check. -/
def embeddedConfigEvents (f : Features) (os : OS) (env : Env) : List Event × Option String :=
  let ev0 := if os == OS.windows then [Event.linkLib "" "advapi32"] else []
  let ev1 := ev0 ++ (if f.hipblas then [Event.rerunIfEnvChanged "AMDGPU_TARGETS"] else [])
  match vulkanStepRun f os env with
  | (vev, some m) => (ev1 ++ vev, some m)
  | (vev, none) =>
    let ev2 := ev1 ++ vev
    if f.openblas && (envGet env "BLAS_INCLUDE_DIRS").isNone then
      (ev2, some "BLAS_INCLUDE_DIRS environment variable must be set when using OpenBLAS")
    else
      (ev2 ++ (if f.openblas then [Event.rerunIfEnvChanged "BLAS_INCLUDE_DIRS"] else []), none)

/-- Link units of the embedded branch (build.rs lines 700-740): baseline
whisper and ggml core/base/cpu units always, plus feature-selected backend
units; no filesystem probing is performed here. -/
def embeddedLinkLibs (f : Features) (os : OS) : List Event :=
  (if f.intelSycl then
     [Event.linkLib "" "whisper", Event.linkLib "" "ggml",
      Event.linkLib "" "ggml-base", Event.linkLib "" "ggml-cpu"]
   else
     [Event.linkLib "static" "whisper", Event.linkLib "static" "ggml",
      Event.linkLib "static" "ggml-base", Event.linkLib "static" "ggml-cpu"])
  ++ (if os == OS.macos || f.openblas then [Event.linkLib "static" "ggml-blas"] else [])
  ++ (if f.vulkan then
        [if f.intelSycl then Event.linkLib "" "ggml-vulkan" else Event.linkLib "static" "ggml-vulkan"]
      else [])
  ++ (if f.hipblas then [Event.linkLib "static" "ggml-hip"] else [])
  ++ (if f.metal then [Event.linkLib "static" "ggml-metal"] else [])
  ++ (if f.cuda then [Event.linkLib "static" "ggml-cuda"] else [])
  ++ (if f.openblas then [Event.linkLib "static" "ggml-blas"] else [])
  ++ (if f.intelSycl then [Event.linkLib "" "ggml-sycl"] else [])

/-- Full embedded-mode branch (build.rs lines 574-741): configure, invoke
cmake, register search paths and emit the link units.  The event part of the
result does not depend on the filesystem snapshot. -/
def embeddedEvents (f : Features) (os : OS) (dbg : Bool) (env : Env) (out root : String) :
    List Event × Option String :=
  match embeddedConfigEvents f os env with
  | (cev, some m) => (cev, some m)
  | (cev, none) =>
    let plan : CMakePlan :=
      { root := root, profile := "Release",
        defines := embPre f env dbg ++ envDefines env ++ embPost f,
        cxxflags := (if os == OS.windows then ["/utf-8"] else [])
          ++ (if dbg || f.forceDebug then ["-DWHISPER_DEBUG"] else []) }
    (cev ++ [Event.cmakeBuild plan, Event.linkSearchRec (pjoin out "build"),
             Event.linkSearch "native" out]
       ++ embeddedLinkLibs f os, none)

def embeddedBuildRun (f : Features) (os : OS) (dbg : Bool) (env : Env) (out root : String)
    (fs : FS) : List Event × Except String FS :=
  match embeddedEvents f os dbg env out root with
  | (ev, some m) => (ev, .error m)
  | (ev, none) => (ev, .ok fs)

/-- Shared-mode defines set before the environment fold (build.rs lines
370-448), in Config::define order: base options, the ggml discovery hints
derived from the exported library directory (with two filesystem probes),
the coreml options and the build type. -/
def shPre (f : Features) (os : OS) (dbg : Bool) (base d : String)
    (includeDir : Option String) (fs : FS) : List (String × String) :=
  [("BUILD_SHARED_LIBS", "OFF"), ("WHISPER_ALL_WARNINGS", "OFF"),
   ("WHISPER_ALL_WARNINGS_3RD_PARTY", "OFF"), ("WHISPER_BUILD_TESTS", "OFF"),
   ("WHISPER_BUILD_EXAMPLES", "OFF"), ("WHISPER_USE_SYSTEM_GGML", "ON")]
  ++ (match parentPath d with
      | some p =>
        [("CMAKE_PREFIX_PATH", p)]
        ++ (if fs.ex (pjoin (pjoin (pjoin p "lib") "cmake") "ggml") then
              [("ggml_DIR", pjoin (pjoin (pjoin p "lib") "cmake") "ggml")] else [])
      | none => [])
  ++ (match includeDir with
      | some i => [("GGML_INCLUDE_DIR", i)]
      | none => [])
  ++ (let nsLib := pjoin d (if os == OS.windows then base ++ ".lib" else "lib" ++ base ++ ".a")
      if fs.ex nsLib then [("GGML_LIBRARY", nsLib)] else [("GGML_LIB_DIR", d)])
  ++ (if f.coreml then coremlDefines else [])
  ++ buildTypeDefines dbg f.forceDebug

/-- Shared-mode defines set after the environment fold (build.rs lines
460-462): only the OpenMP switch. -/
def shPost (f : Features) : List (String × String) :=
  if f.openmp then [] else [("GGML_OPENMP", "OFF")]

/-- Filesystem probe for an optional shared ggml backend artifact
(build.rs lines 487-509, 536-561): the platform-conventional file name in
the exported library directory, or a windows DLL. -/
def sharedProbe (fs : FS) (d base sfx : String) (os : OS) : Bool :=
  let primary := match os with
    | OS.windows => pjoin d (base ++ sfx ++ ".lib")
    | OS.macos => pjoin d ("lib" ++ base ++ sfx ++ ".dylib")
    | OS.linux => pjoin d ("lib" ++ base ++ sfx ++ ".so")
  fs.ex primary || fs.ex (pjoin d (base ++ sfx ++ ".dll"))

/-- Metal probe (build.rs lines 512-518): dylib or static archive, macos. -/
def metalProbe (fs : FS) (d base : String) : Bool :=
  fs.ex (pjoin d ("lib" ++ base ++ "-metal.dylib")) || fs.ex (pjoin d ("lib" ++ base ++ "-metal.a"))

/-- BLAS probe (build.rs lines 521-532): the conventional name, a DLL, or a
static archive. -/
def blasProbe (fs : FS) (d base : String) (os : OS) : Bool :=
  sharedProbe fs d base "-blas" os || fs.ex (pjoin d ("lib" ++ base ++ "-blas.a"))

/-- Link units of the shared branch inside the library-directory block
(build.rs lines 472-561): the baseline namespaced ggml units always, each
optional backend unit only behind a successful filesystem probe. -/
def sharedLinkLibs (f : Features) (os : OS) (base d : String) (fs : FS) : List Event :=
  [Event.linkSearch "native" d,
   Event.linkLib "dylib" base,
   Event.linkLib "dylib" (base ++ "-base"),
   Event.linkLib "dylib" (base ++ "-cpu")]
  ++ (if sharedProbe fs d base "-cuda" os then
        [Event.linkLib "dylib" (base ++ "-cuda"),
         Event.warning ("[GGML] Linked whisper-specific CUDA library: " ++ base ++ "-cuda")]
      else [])
  ++ (if sharedProbe fs d base "-vulkan" os then [Event.linkLib "dylib" (base ++ "-vulkan")] else [])
  ++ (if os == OS.macos && metalProbe fs d base then [Event.linkLib "dylib" (base ++ "-metal")] else [])
  ++ (if (os == OS.macos || f.openblas) && blasProbe fs d base os then
        [Event.linkLib "dylib" (base ++ "-blas")] else [])
  ++ (if f.hipblas && sharedProbe fs d base "-hip" os then [Event.linkLib "dylib" (base ++ "-hip")] else [])
  ++ (if f.intelSycl && sharedProbe fs d base "-sycl" os then [Event.linkLib "dylib" (base ++ "-sycl")] else [])

/-- Names of the namespaced runtime libraries considered for the windows DLL
copy (build.rs lines 806-818). -/
def dllNames (base : String) : List String :=
  [base, base ++ "-base", base ++ "-cpu", base ++ "-cuda", base ++ "-vulkan",
   base ++ "-metal", base ++ "-hip", base ++ "-blas", base ++ "-sycl"]

/-- One probe-and-copy step of the windows DLL placement loop
(build.rs lines 822-835). -/
def dllCopyStep (dllDir target : String) (acc : List Event × FS × Nat) (name : String) :
    List Event × FS × Nat :=
  let dll := name ++ ".dll"
  let srcp := pjoin dllDir dll
  if acc.2.1.ex srcp then
    (acc.1 ++ [Event.fsCopyFile srcp (pjoin target dll),
               Event.warning ("[GGML] Copying namespace-specific library: " ++ dll)],
     acc.2.1.writeFile (pjoin target dll) ((acc.2.1.content srcp).getD ""),
     acc.2.2 + 1)
  else acc

/-- build.rs copy_namespace_dlls_to_target (lines 796-841): probe each DLL in
the source directory and copy the ones that exist next to the consumer. -/
def copy_namespace_dlls_to_target (env : Env) (dllDir base : String) (fs : FS) :
    List Event × FS :=
  match envGet env "OUT_DIR" with
  | none => ([], fs)
  | some out =>
    match ((parentPath out).bind parentPath).bind parentPath with
    | none => ([], fs)
    | some target =>
      let step := (dllNames base).foldl (dllCopyStep dllDir target) ([], fs, 0)
      (step.1 ++ (if step.2.2 > 0 then
          [Event.warning "[GGML] Copied namespace-specific GGML libraries"] else []),
       step.2.1)

/-- Full shared-mode branch (build.rs lines 337-572): fatal without the
exported library directory, otherwise configure against the external ggml,
invoke cmake, emit the probe-guarded link units and, on windows, copy the
runtime DLLs. -/
def sharedBuildRun (f : Features) (os : OS) (dbg : Bool) (env : Env) (out root base : String)
    (libDir binDir includeDir : Option String) (fs : FS) : List Event × Except String FS :=
  match libDir with
  | none => ([], .error "use-shared-ggml feature is enabled but DEP_GGML_RS_GGML_WHISPER_LIB_DIR is not set. This means the ggml-rs build script did not run or did not export the required variables.")
  | some d =>
    let ev0 := [Event.warning ("[GGML] Using whisper-specific GGML libraries with basename: " ++ base),
                Event.linkSearch "native" d]
    let nsLib := pjoin d (if os == OS.windows then base ++ ".lib" else "lib" ++ base ++ ".a")
    let ev1 := ev0 ++ (if fs.ex nsLib then
        [Event.warning ("[GGML] Setting GGML_LIBRARY to whisper-specific library: " ++ nsLib)]
      else
        [Event.warning ("[GGML] Whisper-specific library not found at " ++ nsLib ++ ", using GGML_LIB_DIR")])
    let ev2 := ev1 ++ (if os == OS.windows then [Event.linkLib "" "advapi32"] else [])
    let plan : CMakePlan :=
      { root := root, profile := "Release",
        defines := shPre f os dbg base d includeDir fs ++ envDefines env ++ shPost f,
        cxxflags := (if os == OS.windows then ["/utf-8"] else [])
          ++ (if dbg || f.forceDebug then ["-DWHISPER_DEBUG"] else []) }
    let ev3 := ev2 ++ [Event.cmakeBuild plan, Event.linkSearchRec (pjoin out "build"),
                       Event.linkSearch "native" out, Event.linkLib "static" "whisper"]
    let ev4 := ev3 ++ sharedLinkLibs f os base d fs
    if os == OS.windows then
      let (dev, fs2) := copy_namespace_dlls_to_target env (binDir.getD d) base fs
      (ev4 ++ dev, .ok fs2)
    else (ev4, .ok fs)

/-- Dispatch between the two configuration branches of main (build.rs line
337 vs 574). -/
def buildAndLinkRun (f : Features) (os : OS) (dbg : Bool) (env : Env) (out root base : String)
    (libDir binDir includeDir : Option String) (fs : FS) : List Event × Except String FS :=
  if f.useSharedGgml then sharedBuildRun f os dbg env out root base libDir binDir includeDir fs
  else embeddedBuildRun f os dbg env out root fs

/-- The stages of main up to and including interface generation (build.rs
lines 13-329): preamble, ggml variable resolution, path resolution,
acquisition, staging, bindings.  On success returns the accumulated trace,
the OUT_DIR value and the filesystem state. -/
def preBuildFlow (f : Features) (os : OS) (env : Env) (fs : FS) (orc : Oracle) :
    List Event × Except String (String × FS) :=
  match envGet env "TARGET" with
  | none => ([], .error "environment variable TARGET is not set")
  | some target =>
    match preambleRun f os target env with
    | (pev, some m) => (pev, .error m)
    | (pev, none) =>
      let gev := pev ++ ggmlWarnings env
      match envGet env "OUT_DIR" with
      | none => (gev, .error "environment variable OUT_DIR is not set")
      | some out =>
        match envGet env "CARGO_MANIFEST_DIR" with
        | none => (gev, .error "environment variable CARGO_MANIFEST_DIR is not set")
        | some manifestDir =>
          let src := pjoin manifestDir "whisper.cpp"
          match acquisitionRun out manifestDir src fs orc with
          | (aev, .error m) => (gev ++ aev, .error m)
          | (aev, .ok fs1) =>
            match stagingRun (pjoin out "whisper.cpp") src out fs1 with
            | (sev, .error m) => (gev ++ aev ++ sev, .error m)
            | (sev, .ok fs2) =>
              match bindingsRun f env out (ggml_include_dir env) fs2 orc with
              | (bev, .error m) => (gev ++ aev ++ sev ++ bev, .error m)
              | (bev, .ok fs3) => (gev ++ aev ++ sev ++ bev, .ok (out, fs3))

/-- The whole of main, parameterised over the resolved shared-ggml artifact
base name (the value main computes via ggml_basename). -/
def runMainWith (f : Features) (os : OS) (dbg : Bool) (env : Env) (base : String)
    (fs : FS) (orc : Oracle) : List Event × Outcome :=
  match preBuildFlow f os env fs orc with
  | (ev, .error m) => (ev, .panicked m)
  | (ev, .ok (out, fs3)) =>
    if (envGet env "DOCS_RS").isSome then (ev, .ok)
    else
      let root := pjoin out "whisper.cpp"
      match buildAndLinkRun f os dbg env out root base
          (envGet env "DEP_GGML_RS_GGML_WHISPER_LIB_DIR")
          (envGet env "DEP_GGML_RS_GGML_WHISPER_BIN_DIR")
          (ggml_include_dir env) fs3 with
      | (cev, .error m) => (ev ++ cev, .panicked m)
      | (cev, .ok fs4) =>
        match versionRun root fs4 with
        | (vev, some m) => (ev ++ cev ++ vev, .panicked m)
        | (vev, none) =>
          (ev ++ cev ++ vev ++ [Event.fsRemoveFile "bindings/javascript/package.json"], .ok)

/-- One run of the build script main. -/
def runMain (f : Features) (os : OS) (dbg : Bool) (env : Env) (fs : FS) (orc : Oracle) :
    List Event × Outcome :=
  runMainWith f os dbg env (ggml_basename env) fs orc

/-- The result of main truncated at the DOCS_RS early return: everything up
to and including interface generation, then a normal return. -/
def runPreBuildOnly (f : Features) (os : OS) (env : Env) (fs : FS) (orc : Oracle) :
    List Event × Outcome :=
  match preBuildFlow f os env fs orc with
  | (ev, .error m) => (ev, .panicked m)
  | (ev, .ok _) => (ev, .ok)

/-- The cmake plans contained in a trace. -/
def plansOf (l : List Event) : List CMakePlan :=
  l.filterMap (fun e => match e with | .cmakeBuild p => some p | _ => none)

/-- True when a trace contains neither a cmake invocation nor a version
metadata line; every stage before the configuration branch satisfies it. -/
def preBuildClean (l : List Event) : Bool :=
  l.all (fun e => !e.isCmake && !e.isVersion)

/-- A feature set with every toggle disabled. -/
def f0 : Features :=
  { coreml := false, metal := false, vulkan := false, cuda := false, hipblas := false,
    openblas := false, openmp := false, useSharedGgml := false, forceDebug := false,
    intelSycl := false }

/-- An empty filesystem. -/
def fsFalse : FS :=
  { ex := fun _ => false, hasContents := fun _ => false, content := fun _ => none }

/-- A filesystem in which the vendor tree and the staged workspace already
exist, the pinned binding snapshot is available, and the staged descriptor
carries a well-formed version declaration. -/
def fsStaged : FS :=
  { ex := fun p => p == "/m/whisper.cpp" || p == "/o/whisper.cpp" || p == "/o/whisper.cpp/CMakeLists.txt"
    hasContents := fun p => p == "/m/whisper.cpp"
    content := fun p =>
      if p == "src/bindings.rs" then some "FALLBACK"
      else if p == "/o/whisper.cpp/CMakeLists.txt" then some "project(\"whisper.cpp\" VERSION 1.7.6)"
      else none }

/-- Like fsStaged but with a descriptor that carries no version line. -/
def fsStagedNoVersion : FS :=
  { fsStaged with
    content := fun p =>
      if p == "src/bindings.rs" then some "FALLBACK"
      else if p == "/o/whisper.cpp/CMakeLists.txt" then some "cmake_minimum_required(VERSION 3.5)"
      else none }

/-- An oracle for runs that never reach an external process. -/
def orc0 : Oracle :=
  { submoduleResult := none, fsAfterSubmodule := fsFalse, cloneResult := none,
    renameOk := true, bindgenOk := true, generated := "GEN" }

/-- A baseline environment: target triple, output and manifest directories,
bindings generation disabled. -/
def envBase : Env :=
  [("TARGET", "x86_64-unknown-linux-gnu"), ("OUT_DIR", "/o"), ("CARGO_MANIFEST_DIR", "/m"),
   ("WHISPER_DONT_GENERATE_BINDINGS", "1")]

@[simp]
theorem mem_if_list {α : Type} {c : Prop} [Decidable c] {l : List α} {a : α} :
    (a ∈ if c then l else []) ↔ (c ∧ a ∈ l) := by
  split <;> simp_all

theorem preBuildClean_append {a b : List Event} :
    preBuildClean (a ++ b) = (preBuildClean a && preBuildClean b) := by
  simp [preBuildClean, List.all_append]

/-- C6: staging performs no filesystem operation, emits nothing and leaves
the filesystem untouched when the workspace already exists and already
contains the native build descriptor. -/
theorem c6_staging_idempotent (root src out : String) (fs : FS)
    (h1 : fs.ex root = true) (h2 : fs.ex (pjoin root "CMakeLists.txt") = true) :
    stagingRun root src out fs = ([], .ok fs) := by
  unfold stagingRun
  simp [h1, h2]

/-- Witness for C6 at a concrete filesystem in which the staged workspace and
its descriptor exist. -/
theorem c6_staging_idempotent_witness :
    fsStaged.ex "/o/whisper.cpp" = true
    ∧ fsStaged.ex (pjoin "/o/whisper.cpp" "CMakeLists.txt") = true
    ∧ stagingRun "/o/whisper.cpp" "/m/whisper.cpp" "/o" fsStaged = ([], .ok fsStaged) :=
  ⟨by decide, by decide, c6_staging_idempotent "/o/whisper.cpp" "/m/whisper.cpp" "/o" fsStaged (by decide) (by decide)⟩

/-- C5: evaluation of the acquisition cascade at the failing input: the
vendor tree is absent, submodule init fails to spawn, the shallow clone
succeeds and the rename fails.  The acquisition step reports success, yet
the expected vendor path /m/whisper.cpp does not exist afterwards: the
fallback copied the clone to /m/whisper.cpp-temp instead (the temporary
clone under the build directory is cleaned up). -/
theorem c5_clone_fallback_wrong_destination :
    ((acquisitionRun "/o" "/m" "/m/whisper.cpp" fsFalse
        { orc0 with cloneResult := some true, renameOk := false }).2.toOption.map
      (fun fs => (fs.ex "/m/whisper.cpp", fs.ex "/m/whisper.cpp-temp", fs.ex "/o/whisper.cpp-temp")))
    = some (false, true, false) := by
  decide

/-- C10: when the exported artifact base-name variable is absent, the
resolved base name is the fallback literal and the whole run of main equals
the run of main with the base name fixed to that fallback, so every
shared-mode link directive, probe and DLL copy is computed from it. -/
theorem c10_basename_default (f : Features) (os : OS) (dbg : Bool) (env : Env) (fs : FS)
    (orc : Oracle) (h : envGet env "DEP_GGML_RS_GGML_WHISPER_BASENAME" = none) :
    ggml_basename env = "ggml_whisper"
    ∧ runMain f os dbg env fs orc = runMainWith f os dbg env "ggml_whisper" fs orc := by
  have hb : ggml_basename env = "ggml_whisper" := by simp [ggml_basename, h]
  exact ⟨hb, by rw [runMain, hb]⟩

/-- Witness for C10 at a concrete environment lacking the base-name
variable. -/
theorem c10_basename_default_witness :
    ggml_basename envBase = "ggml_whisper"
    ∧ runMain f0 OS.linux false envBase fsStaged orc0
        = runMainWith f0 OS.linux false envBase "ggml_whisper" fsStaged orc0 :=
  c10_basename_default f0 OS.linux false envBase fsStaged orc0 (by decide)

/-- C4: when bindgen fails (and the run reaches generation: snapshot copy is
not forced and, in shared mode, the include directory is known), the
bindings stage does not abort: it emits the two warning diagnostics, copies
the pinned snapshot into the output location so that the resulting bindings
file is byte-identical to the snapshot, and returns normally so that main
continues with the remaining stages. -/
theorem c4_bindgen_failure_degrades (f : Features) (env : Env) (out : String)
    (includeDir : Option String) (fs : FS) (orc : Oracle) (c : String)
    (h1 : envGet env "WHISPER_DONT_GENERATE_BINDINGS" = none)
    (h2 : (f.useSharedGgml && includeDir.isNone) = false)
    (h3 : orc.bindgenOk = false)
    (h4 : fs.content "src/bindings.rs" = some c) :
    bindingsRun f env out includeDir fs orc =
      ([Event.bindgenGenerate, Event.warning "Unable to generate bindings",
        Event.warning "Using bundled bindings.rs, which may be out of date",
        Event.fsCopyFile "src/bindings.rs" (pjoin out "bindings.rs")],
       .ok (fs.writeFile (pjoin out "bindings.rs") c))
    ∧ (fs.writeFile (pjoin out "bindings.rs") c).content (pjoin out "bindings.rs") = some c := by
  constructor
  · unfold bindingsRun
    simp [h1, h2, h3, h4]
  · simp [FS.writeFile]

/-- Witness for C4 at a concrete failing bindgen run. -/
theorem c4_bindgen_failure_degrades_witness :
    bindingsRun f0 [("TARGET", "t")] "/o" none fsStaged { orc0 with bindgenOk := false }
      = ([Event.bindgenGenerate, Event.warning "Unable to generate bindings",
          Event.warning "Using bundled bindings.rs, which may be out of date",
          Event.fsCopyFile "src/bindings.rs" (pjoin "/o" "bindings.rs")],
         .ok (fsStaged.writeFile (pjoin "/o" "bindings.rs") "FALLBACK"))
    ∧ (fsStaged.writeFile (pjoin "/o" "bindings.rs") "FALLBACK").content (pjoin "/o" "bindings.rs")
        = some "FALLBACK" :=
  c4_bindgen_failure_degrades f0 [("TARGET", "t")] "/o" none fsStaged
    { orc0 with bindgenOk := false } "FALLBACK" (by decide) (by decide) (by decide) (by decide)

/-- C2 counterexample: a run whose staged descriptor contains no version
declaration does not proceed with an unknown version: main panics at the
version-extraction step, so the pipeline aborts, contrary to the claim. -/
theorem c2_counterexample_pipeline_aborts :
    (runMain f0 OS.linux false envBase fsStagedNoVersion orc0).2
      = Outcome.panicked "Could not find whisper.cpp version declaration" := by
  decide

/-- C2 (amended): version extraction scans the descriptor line by line and
returns none when no line carries the declaration; main however treats none
as fatal (an expect panic), not as a tolerated unknown version. -/
theorem c2_version_none_is_fatal :
    (∀ txt : String, ((splitLines txt).all (fun l => !matchesVersionLine l)) = true →
       get_whisper_cpp_version txt = none)
    ∧ (∀ (root : String) (fs : FS) (txt : String),
         fs.content (pjoin root "CMakeLists.txt") = some txt →
         get_whisper_cpp_version txt = none →
         versionRun root fs = ([], some "Could not find whisper.cpp version declaration")) := by
  constructor
  · intro txt h
    unfold get_whisper_cpp_version
    generalize splitLines txt = ls at h ⊢
    induction ls with
    | nil => rfl
    | cons l ls ih =>
      simp only [List.all_cons, Bool.and_eq_true, Bool.not_eq_true'] at h
      unfold versionFromLines
      simp only [h.1, Bool.false_eq_true, if_false]
      exact ih h.2
  · intro root fs txt h1 h2
    unfold versionRun
    rw [h1]
    simp [h2]

/-- Witness for C2 at a concrete descriptor without a version line. -/
theorem c2_version_none_is_fatal_witness :
    get_whisper_cpp_version "cmake_minimum_required(VERSION 3.5)" = none
    ∧ versionRun "/o/whisper.cpp" fsStagedNoVersion
        = ([], some "Could not find whisper.cpp version declaration") :=
  ⟨c2_version_none_is_fatal.1 "cmake_minimum_required(VERSION 3.5)" (by decide),
   c2_version_none_is_fatal.2 "/o/whisper.cpp" fsStagedNoVersion
     "cmake_minimum_required(VERSION 3.5)" (by decide) (by decide)⟩

/-- C1 counterexample: in the embedded-mode branch the optional vulkan
backend unit is emitted purely because the feature is enabled — the run
below emits the ggml-vulkan link directive although no vulkan artifact
exists anywhere on the filesystem (in particular not in the build output
directory), so the probe-before-link invariant fails in embedded mode. -/
theorem c1_counterexample_embedded_unit_without_artifact :
    Event.linkLib "static" "ggml-vulkan"
      ∈ (runMain { f0 with vulkan := true } OS.linux false envBase fsStaged orc0).1
    ∧ fsStaged.ex "/o/build/libggml-vulkan.a" = false
    ∧ fsStaged.ex "/o/libggml-vulkan.a" = false := by
  refine ⟨by decide, by decide, by decide⟩

/-- Appending strings concatenates their character lists. -/
theorem str_app_data (a b : String) : (a ++ b).data = a.data ++ b.data := rfl

/-- Left cancellation for string append. -/
theorem str_app_cancel {a s t : String} (h : a ++ s = a ++ t) : s = t := by
  have hd := congrArg String.data h
  rw [str_app_data, str_app_data] at hd
  have h2 := List.append_cancel_left hd
  cases s
  cases t
  exact congrArg String.mk h2

/-- Appending a non-empty string changes the string. -/
theorem str_app_ne_self {a s : String} (hs : ¬ s = "") : ¬ (a ++ s = a) := by
  intro h
  have hd := congrArg String.data h
  rw [str_app_data] at hd
  have hlen : a.data.length + s.data.length = a.data.length := by
    have h2 := congrArg List.length hd
    simpa using h2
  have hz : s.data.length = 0 := by omega
  have hnil : s.data = [] := List.eq_nil_of_length_eq_zero hz
  apply hs
  cases s
  exact (congrArg String.mk hnil).trans rfl

/-- C1 (amended): the probe-before-link invariant holds in the shared branch
for every artifact base name: each optional backend unit appears in the
shared link phase only when its filesystem probe succeeded, while the
baseline units (the namespaced ggml core, base and cpu dylibs, and the
static whisper archive emitted by every shared run that reaches its
library-directory block) are unconditional; the embedded branch emits its
optional units from the feature set alone, without probing, and its
baseline units are likewise unconditional. -/
theorem c1_probe_guard (f : Features) (os : OS) (dbg : Bool) (env : Env)
    (out root base d : String) (binDir includeDir : Option String) (fs : FS) :
    (Event.linkLib "dylib" (base ++ "-cuda") ∈ sharedLinkLibs f os base d fs →
       sharedProbe fs d base "-cuda" os = true)
    ∧ (Event.linkLib "dylib" (base ++ "-vulkan") ∈ sharedLinkLibs f os base d fs →
       sharedProbe fs d base "-vulkan" os = true)
    ∧ (Event.linkLib "dylib" (base ++ "-metal") ∈ sharedLinkLibs f os base d fs →
       metalProbe fs d base = true)
    ∧ (Event.linkLib "dylib" (base ++ "-blas") ∈ sharedLinkLibs f os base d fs →
       blasProbe fs d base os = true)
    ∧ (Event.linkLib "dylib" (base ++ "-hip") ∈ sharedLinkLibs f os base d fs →
       sharedProbe fs d base "-hip" os = true)
    ∧ (Event.linkLib "dylib" (base ++ "-sycl") ∈ sharedLinkLibs f os base d fs →
       sharedProbe fs d base "-sycl" os = true)
    ∧ Event.linkLib "dylib" base ∈ sharedLinkLibs f os base d fs
    ∧ Event.linkLib "dylib" (base ++ "-base") ∈ sharedLinkLibs f os base d fs
    ∧ Event.linkLib "dylib" (base ++ "-cpu") ∈ sharedLinkLibs f os base d fs
    ∧ Event.linkLib "static" "whisper"
        ∈ (sharedBuildRun f os dbg env out root base (some d) binDir includeDir fs).1
    ∧ (Event.linkLib "static" "whisper" ∈ embeddedLinkLibs f os
       ∨ Event.linkLib "" "whisper" ∈ embeddedLinkLibs f os)
    ∧ (Event.linkLib "static" "ggml" ∈ embeddedLinkLibs f os
       ∨ Event.linkLib "" "ggml" ∈ embeddedLinkLibs f os)
    ∧ (Event.linkLib "static" "ggml-base" ∈ embeddedLinkLibs f os
       ∨ Event.linkLib "" "ggml-base" ∈ embeddedLinkLibs f os)
    ∧ (Event.linkLib "static" "ggml-cpu" ∈ embeddedLinkLibs f os
       ∨ Event.linkLib "" "ggml-cpu" ∈ embeddedLinkLibs f os) := by
  have hself : ∀ (sfx : String), ¬ sfx = "" → ∀ a : String, ¬ (a ++ sfx = a) :=
    fun sfx hs a => str_app_ne_self hs
  have hne : ∀ (s t : String), ¬ s = t → ∀ a : String, ¬ (a ++ s = a ++ t) :=
    fun s t hst a hh => hst (str_app_cancel hh)
  refine ⟨?_, ?_, ?_, ?_, ?_, ?_, ?_, ?_, ?_, ?_, ?_, ?_, ?_, ?_⟩
  · intro h
    simp only [sharedLinkLibs, List.mem_append, List.mem_cons, List.mem_singleton, mem_if_list,
      Event.linkLib.injEq, List.not_mem_nil, or_false, false_or, true_and, and_true,
      reduceCtorEq, Bool.and_eq_true,
      hself "-cuda" (by decide), hne "-cuda" "-base" (by decide), hne "-cuda" "-cpu" (by decide),
      hne "-cuda" "-vulkan" (by decide), hne "-cuda" "-metal" (by decide),
      hne "-cuda" "-blas" (by decide), hne "-cuda" "-hip" (by decide),
      hne "-cuda" "-sycl" (by decide)] at h
    tauto
  · intro h
    simp only [sharedLinkLibs, List.mem_append, List.mem_cons, List.mem_singleton, mem_if_list,
      Event.linkLib.injEq, List.not_mem_nil, or_false, false_or, true_and, and_true,
      reduceCtorEq, Bool.and_eq_true,
      hself "-vulkan" (by decide), hne "-vulkan" "-base" (by decide),
      hne "-vulkan" "-cpu" (by decide), hne "-vulkan" "-cuda" (by decide),
      hne "-vulkan" "-metal" (by decide), hne "-vulkan" "-blas" (by decide),
      hne "-vulkan" "-hip" (by decide), hne "-vulkan" "-sycl" (by decide)] at h
    tauto
  · intro h
    simp only [sharedLinkLibs, List.mem_append, List.mem_cons, List.mem_singleton, mem_if_list,
      Event.linkLib.injEq, List.not_mem_nil, or_false, false_or, true_and, and_true,
      reduceCtorEq, Bool.and_eq_true,
      hself "-metal" (by decide), hne "-metal" "-base" (by decide),
      hne "-metal" "-cpu" (by decide), hne "-metal" "-cuda" (by decide),
      hne "-metal" "-vulkan" (by decide), hne "-metal" "-blas" (by decide),
      hne "-metal" "-hip" (by decide), hne "-metal" "-sycl" (by decide)] at h
    tauto
  · intro h
    simp only [sharedLinkLibs, List.mem_append, List.mem_cons, List.mem_singleton, mem_if_list,
      Event.linkLib.injEq, List.not_mem_nil, or_false, false_or, true_and, and_true,
      reduceCtorEq, Bool.and_eq_true,
      hself "-blas" (by decide), hne "-blas" "-base" (by decide),
      hne "-blas" "-cpu" (by decide), hne "-blas" "-cuda" (by decide),
      hne "-blas" "-vulkan" (by decide), hne "-blas" "-metal" (by decide),
      hne "-blas" "-hip" (by decide), hne "-blas" "-sycl" (by decide)] at h
    tauto
  · intro h
    simp only [sharedLinkLibs, List.mem_append, List.mem_cons, List.mem_singleton, mem_if_list,
      Event.linkLib.injEq, List.not_mem_nil, or_false, false_or, true_and, and_true,
      reduceCtorEq, Bool.and_eq_true,
      hself "-hip" (by decide), hne "-hip" "-base" (by decide),
      hne "-hip" "-cpu" (by decide), hne "-hip" "-cuda" (by decide),
      hne "-hip" "-vulkan" (by decide), hne "-hip" "-metal" (by decide),
      hne "-hip" "-blas" (by decide), hne "-hip" "-sycl" (by decide)] at h
    tauto
  · intro h
    simp only [sharedLinkLibs, List.mem_append, List.mem_cons, List.mem_singleton, mem_if_list,
      Event.linkLib.injEq, List.not_mem_nil, or_false, false_or, true_and, and_true,
      reduceCtorEq, Bool.and_eq_true,
      hself "-sycl" (by decide), hne "-sycl" "-base" (by decide),
      hne "-sycl" "-cpu" (by decide), hne "-sycl" "-cuda" (by decide),
      hne "-sycl" "-vulkan" (by decide), hne "-sycl" "-metal" (by decide),
      hne "-sycl" "-blas" (by decide), hne "-sycl" "-hip" (by decide)] at h
    tauto
  · simp [sharedLinkLibs]
  · simp [sharedLinkLibs]
  · simp [sharedLinkLibs]
  · unfold sharedBuildRun
    dsimp only
    split_ifs <;> simp
  · cases hs : f.intelSycl <;> simp [embeddedLinkLibs, hs]
  · cases hs : f.intelSycl <;> simp [embeddedLinkLibs, hs]
  · cases hs : f.intelSycl <;> simp [embeddedLinkLibs, hs]
  · cases hs : f.intelSycl <;> simp [embeddedLinkLibs, hs]

/-- Witness for C1 at a concrete filesystem holding exactly the cuda
artifact: the emitted cuda unit implies the successful probe. -/
theorem c1_probe_guard_witness :
    sharedProbe
      { ex := fun p => p == "/g/lib/libggml_whisper-cuda.so",
        hasContents := fun _ => false, content := fun _ => none }
      "/g/lib" "ggml_whisper" "-cuda" OS.linux = true :=
  (c1_probe_guard f0 OS.linux false [] "/o" "/r" "ggml_whisper" "/g/lib" none none
      { ex := fun p => p == "/g/lib/libggml_whisper-cuda.so",
        hasContents := fun _ => false, content := fun _ => none }).1
    (by decide)

theorem preBuildClean_ite {c : Prop} [Decidable c] {a b : List Event} :
    preBuildClean (if c then a else b) = if c then preBuildClean a else preBuildClean b :=
  apply_ite preBuildClean c a b

theorem preBuildClean_cons {e : Event} {l : List Event} :
    preBuildClean (e :: l) = ((!e.isCmake && !e.isVersion) && preBuildClean l) := by
  simp [preBuildClean, Bool.and_assoc]

theorem preBuildClean_nil : preBuildClean [] = true := rfl

theorem isCmake_ite {c : Prop} [Decidable c] {a b : Event} :
    (if c then a else b).isCmake = if c then a.isCmake else b.isCmake :=
  apply_ite Event.isCmake c a b

theorem isVersion_ite {c : Prop} [Decidable c] {a b : Event} :
    (if c then a else b).isVersion = if c then a.isVersion else b.isVersion :=
  apply_ite Event.isVersion c a b

theorem cudaStep_clean (f : Features) (os : OS) (env : Env) :
    preBuildClean (cudaStepRun f os env).1 = true := by
  unfold cudaStepRun
  cases hc : envGet env "CUDA_PATH" <;> simp only [hc] <;> split_ifs <;> rfl

theorem hipStep_clean (f : Features) (os : OS) (env : Env) :
    preBuildClean (hipStepRun f os env).1 = true := by
  unfold hipStepRun
  split_ifs <;> rfl

theorem preamble_clean (f : Features) (os : OS) (target : String) (env : Env) :
    preBuildClean (preambleRun f os target env).1 = true := by
  have hcu := cudaStep_clean f os env
  have hhp := hipStep_clean f os env
  unfold preambleRun
  rcases hc : cudaStepRun f os env with ⟨cev, cpan⟩
  rw [hc] at hcu
  rcases hh : hipStepRun f os env with ⟨hev, hpan⟩
  rw [hh] at hhp
  dsimp only at hcu hhp
  cases hstd : get_cpp_link_stdlib target <;>
  cases hob : envGet env "OPENBLAS_PATH" <;>
  cases hw : os == OS.windows <;>
  cases cpan <;> cases hpan <;>
  simp [hstd, hob, hw, preBuildClean_append, preBuildClean_ite, preBuildClean_cons,
        preBuildClean_nil, isCmake_ite, isVersion_ite, Event.isCmake, Event.isVersion,
        hcu, hhp]

theorem ggmlWarnings_clean (env : Env) :
    preBuildClean (ggmlWarnings env) = true := by
  unfold ggmlWarnings
  repeat' split
  all_goals simp [preBuildClean, Event.isCmake, Event.isVersion]

theorem acquisition_clean (out manifestDir src : String) (fs : FS) (orc : Oracle) :
    preBuildClean (acquisitionRun out manifestDir src fs orc).1 = true := by
  unfold acquisitionRun
  dsimp only
  cases hsub : orc.submoduleResult <;>
  rcases hclone : orc.cloneResult with _ | (_ | _) <;>
  simp only [hsub, hclone] <;>
  split_ifs <;> rfl

theorem staging_clean (root src out : String) (fs : FS) :
    preBuildClean (stagingRun root src out fs).1 = true := by
  unfold stagingRun
  dsimp only
  split_ifs <;> rfl

theorem bindings_clean (f : Features) (env : Env) (out : String) (includeDir : Option String)
    (fs : FS) (orc : Oracle) :
    preBuildClean (bindingsRun f env out includeDir fs orc).1 = true := by
  unfold bindingsRun
  cases hcont : fs.content "src/bindings.rs" <;>
  simp only [hcont] <;>
  split_ifs <;> rfl

theorem preBuildFlow_clean (f : Features) (os : OS) (env : Env) (fs : FS) (orc : Oracle) :
    preBuildClean (preBuildFlow f os env fs orc).1 = true := by
  unfold preBuildFlow
  cases ht : envGet env "TARGET" with
  | none => rfl
  | some target =>
    dsimp only
    rcases hp : preambleRun f os target env with ⟨pev, ppan⟩
    have hpc : preBuildClean pev = true := by
      have h := preamble_clean f os target env
      rw [hp] at h
      exact h
    have hg := ggmlWarnings_clean env
    cases ppan with
    | some m => simpa using hpc
    | none =>
      dsimp only
      cases ho : envGet env "OUT_DIR" with
      | none => simp [preBuildClean_append, hpc, hg]
      | some out =>
        dsimp only
        cases hm : envGet env "CARGO_MANIFEST_DIR" with
        | none => simp [preBuildClean_append, hpc, hg]
        | some manifestDir =>
          dsimp only
          rcases ha : acquisitionRun out manifestDir (pjoin manifestDir "whisper.cpp") fs orc
            with ⟨aev, ares⟩
          have hac : preBuildClean aev = true := by
            have h := acquisition_clean out manifestDir (pjoin manifestDir "whisper.cpp") fs orc
            rw [ha] at h
            exact h
          cases ares with
          | error m => simp [preBuildClean_append, hpc, hg, hac]
          | ok fs1 =>
            dsimp only
            rcases hs : stagingRun (pjoin out "whisper.cpp") (pjoin manifestDir "whisper.cpp") out fs1
              with ⟨sev, sres⟩
            have hsc : preBuildClean sev = true := by
              have h := staging_clean (pjoin out "whisper.cpp") (pjoin manifestDir "whisper.cpp") out fs1
              rw [hs] at h
              exact h
            cases sres with
            | error m => simp [preBuildClean_append, hpc, hg, hac, hsc]
            | ok fs2 =>
              dsimp only
              rcases hb : bindingsRun f env out (ggml_include_dir env) fs2 orc with ⟨bev, bres⟩
              have hbc : preBuildClean bev = true := by
                have h := bindings_clean f env out (ggml_include_dir env) fs2 orc
                rw [hb] at h
                exact h
              cases bres with
              | error m => simp [preBuildClean_append, hpc, hg, hac, hsc, hbc]
              | ok st => simp [preBuildClean_append, hpc, hg, hac, hsc, hbc]

theorem cmakeFree_append {a b : List Event} :
    cmakeFree (a ++ b) = (cmakeFree a && cmakeFree b) := by
  simp [cmakeFree, List.all_append]

theorem cmakeFree_of_clean {l : List Event} (h : preBuildClean l = true) : cmakeFree l = true := by
  simp only [preBuildClean, List.all_eq_true, Bool.and_eq_true] at h
  simp only [cmakeFree, List.all_eq_true]
  intro e he
  exact (h e he).1

theorem versionFree_of_clean {l : List Event} (h : preBuildClean l = true) : versionFree l = true := by
  simp only [preBuildClean, List.all_eq_true, Bool.and_eq_true] at h
  simp only [versionFree, List.all_eq_true]
  intro e he
  exact (h e he).2

theorem vulkanStep_clean (f : Features) (os : OS) (env : Env) :
    preBuildClean (vulkanStepRun f os env).1 = true := by
  unfold vulkanStepRun
  cases os <;> cases hs : envGet env "VULKAN_SDK" <;> simp only [hs] <;> split_ifs <;> rfl

theorem embeddedConfig_clean (f : Features) (os : OS) (env : Env) :
    preBuildClean (embeddedConfigEvents f os env).1 = true := by
  have hv := vulkanStep_clean f os env
  unfold embeddedConfigEvents
  dsimp only
  rcases hvk : vulkanStepRun f os env with ⟨vev, vpan⟩
  rw [hvk] at hv
  dsimp only at hv
  cases vpan <;>
  split_ifs <;>
  simp_all [preBuildClean_append, preBuildClean_ite, preBuildClean, Event.isCmake, Event.isVersion]

theorem embeddedConfig_blas_missing (f : Features) (os : OS) (env : Env)
    (hb : f.openblas = true) (hm : envGet env "BLAS_INCLUDE_DIRS" = none) :
    (embeddedConfigEvents f os env).2.isSome = true := by
  unfold embeddedConfigEvents
  dsimp only
  rcases hvk : vulkanStepRun f os env with ⟨vev, vpan⟩
  cases vpan with
  | some m => rfl
  | none =>
    dsimp only
    rw [if_pos]
    · rfl
    · simp [hb, hm]

theorem embedded_fatal (f : Features) (os : OS) (dbg : Bool) (env : Env) (out root : String)
    (fs : FS) (hb : f.openblas = true) (hm : envGet env "BLAS_INCLUDE_DIRS" = none) :
    (embeddedBuildRun f os dbg env out root fs).2.toOption = none
    ∧ cmakeFree (embeddedBuildRun f os dbg env out root fs).1 = true := by
  have h2 := embeddedConfig_blas_missing f os env hb hm
  have hc := embeddedConfig_clean f os env
  unfold embeddedBuildRun embeddedEvents
  rcases hce : embeddedConfigEvents f os env with ⟨cev, cpan⟩
  rw [hce] at h2 hc
  dsimp only at h2 hc ⊢
  cases cpan with
  | none => simp at h2
  | some m => exact ⟨rfl, cmakeFree_of_clean hc⟩

theorem shared_fatal (f : Features) (os : OS) (dbg : Bool) (env : Env) (out root base : String)
    (binDir includeDir : Option String) (fs : FS) :
    sharedBuildRun f os dbg env out root base none binDir includeDir fs
      = ([], .error "use-shared-ggml feature is enabled but DEP_GGML_RS_GGML_WHISPER_LIB_DIR is not set. This means the ggml-rs build script did not run or did not export the required variables.") := by
  rfl

/-- C9 (amended): with DOCS_RS set, main stops right after the binding
stage: the run equals the pipeline truncated at the DOCS_RS check, the
external build tool is never invoked and no version string is emitted.  The
preamble directives emitted before the check (which include the coreml
companion library directive when that feature is on) are the only
directives in the trace. -/
theorem c9_docs_rs (f : Features) (os : OS) (dbg : Bool) (env : Env) (fs : FS) (orc : Oracle)
    (h : (envGet env "DOCS_RS").isSome = true) :
    runMain f os dbg env fs orc = runPreBuildOnly f os env fs orc
    ∧ cmakeFree (runMain f os dbg env fs orc).1 = true
    ∧ versionFree (runMain f os dbg env fs orc).1 = true := by
  have hclean := preBuildFlow_clean f os env fs orc
  have heq : runMain f os dbg env fs orc = runPreBuildOnly f os env fs orc := by
    unfold runMain runMainWith runPreBuildOnly
    rcases hpb : preBuildFlow f os env fs orc with ⟨ev, res⟩
    cases res with
    | error m => rfl
    | ok st =>
      rcases st with ⟨out, fs3⟩
      simp [h]
  refine ⟨heq, ?_, ?_⟩ <;> rw [heq] <;> unfold runPreBuildOnly
  · rcases hpb : preBuildFlow f os env fs orc with ⟨ev, res⟩
    rw [hpb] at hclean
    dsimp only at hclean
    cases res with
    | error m => exact cmakeFree_of_clean hclean
    | ok st => exact cmakeFree_of_clean hclean
  · rcases hpb : preBuildFlow f os env fs orc with ⟨ev, res⟩
    rw [hpb] at hclean
    dsimp only at hclean
    cases res with
    | error m => exact versionFree_of_clean hclean
    | ok st => exact versionFree_of_clean hclean

/-- Witness for C9 at a concrete run with DOCS_RS set. -/
theorem c9_docs_rs_witness :
    runMain f0 OS.linux false (("DOCS_RS", "1") :: envBase) fsStaged orc0
      = runPreBuildOnly f0 OS.linux (("DOCS_RS", "1") :: envBase) fsStaged orc0
    ∧ cmakeFree (runMain f0 OS.linux false (("DOCS_RS", "1") :: envBase) fsStaged orc0).1 = true
    ∧ versionFree (runMain f0 OS.linux false (("DOCS_RS", "1") :: envBase) fsStaged orc0).1 = true :=
  c9_docs_rs f0 OS.linux false (("DOCS_RS", "1") :: envBase) fsStaged orc0 (by decide)

/-- C9 counterexample: with DOCS_RS set and the coreml capability enabled, a
link-library directive naming the native companion artifact whisper.coreml
is still emitted (in the preamble, before the DOCS_RS check), so the claim
that no link directive for a native library is emitted on docs builds is
false as stated. -/
theorem c9_counterexample_coreml_directive :
    Event.linkLib "static" "whisper.coreml"
      ∈ (runMain { f0 with coreml := true } OS.macos false
          (("DOCS_RS", "1") :: ("TARGET", "aarch64-apple-darwin") :: envBase) fsStaged orc0).1
    ∧ (envGet (("DOCS_RS", "1") :: ("TARGET", "aarch64-apple-darwin") :: envBase) "DOCS_RS").isSome
        = true := by
  exact ⟨by decide, by decide⟩

/-- C3 (amended): when a selected backend misses its required environment
variable (embedded openblas without BLAS_INCLUDE_DIRS, or shared mode
without the exported library directory), the external build tool is never
invoked; unless the run is short-circuited by DOCS_RS right after binding
generation, the pipeline additionally ends in a panic. -/
theorem c3_missing_env_blocks_build (f : Features) (os : OS) (dbg : Bool) (env : Env)
    (fs : FS) (orc : Oracle)
    (h : (f.useSharedGgml = false ∧ f.openblas = true ∧ envGet env "BLAS_INCLUDE_DIRS" = none)
       ∨ (f.useSharedGgml = true ∧ envGet env "DEP_GGML_RS_GGML_WHISPER_LIB_DIR" = none)) :
    cmakeFree (runMain f os dbg env fs orc).1 = true
    ∧ (envGet env "DOCS_RS" = none → (runMain f os dbg env fs orc).2.isPanic = true) := by
  unfold runMain runMainWith
  rcases hpb : preBuildFlow f os env fs orc with ⟨ev, res⟩
  have hclean : preBuildClean ev = true := by
    have h2 := preBuildFlow_clean f os env fs orc
    rw [hpb] at h2
    exact h2
  cases res with
  | error m => exact ⟨cmakeFree_of_clean hclean, fun _ => rfl⟩
  | ok st =>
    rcases st with ⟨out, fs3⟩
    dsimp only
    cases hd : envGet env "DOCS_RS" with
    | some v =>
      rw [if_pos (by simp)]
      refine ⟨cmakeFree_of_clean hclean, ?_⟩
      intro hnone
      exact absurd hnone (by simp)
    | none =>
      rw [if_neg (by simp)]
      rcases h with ⟨hsh, hob, hbm⟩ | ⟨hsh, hlib⟩
      · have hf := embedded_fatal f os dbg env out (pjoin out "whisper.cpp") fs3 hob hbm
        rcases hbr : embeddedBuildRun f os dbg env out (pjoin out "whisper.cpp") fs3 with ⟨cev, cres⟩
        rw [hbr] at hf
        unfold buildAndLinkRun
        rw [if_neg (by simp [hsh]), hbr]
        cases cres with
        | ok fsx => exact absurd hf.1 (by simp [Except.toOption])
        | error m =>
          refine ⟨?_, fun _ => rfl⟩
          dsimp only
          rw [cmakeFree_append]
          rw [cmakeFree_of_clean hclean, hf.2]
          rfl
      · unfold buildAndLinkRun
        rw [if_pos hsh, hlib, shared_fatal]
        refine ⟨?_, fun _ => rfl⟩
        dsimp only
        rw [cmakeFree_append]
        rw [cmakeFree_of_clean hclean]
        rfl

/-- Witness for C3 at a concrete embedded openblas run without
BLAS_INCLUDE_DIRS and without DOCS_RS. -/
theorem c3_missing_env_blocks_build_witness :
    cmakeFree (runMain { f0 with openblas := true } OS.linux false envBase fsStaged orc0).1 = true
    ∧ (runMain { f0 with openblas := true } OS.linux false envBase fsStaged orc0).2.isPanic = true :=
  ⟨(c3_missing_env_blocks_build { f0 with openblas := true } OS.linux false envBase fsStaged orc0
      (Or.inl ⟨by decide, by decide, by decide⟩)).1,
   (c3_missing_env_blocks_build { f0 with openblas := true } OS.linux false envBase fsStaged orc0
      (Or.inl ⟨by decide, by decide, by decide⟩)).2 (by decide)⟩

/-- C3 counterexample: openblas selected together with shared mode and
BLAS_INCLUDE_DIRS unset does not fail at all: the run completes normally
and does invoke the external build tool, because the BLAS_INCLUDE_DIRS
check lives only in the embedded branch. -/
theorem c3_counterexample_shared_openblas_builds :
    (runMain { f0 with useSharedGgml := true, openblas := true } OS.linux false
        (("DEP_GGML_RS_GGML_WHISPER_LIB_DIR", "/g/lib") :: envBase) fsStaged orc0).2 = Outcome.ok
    ∧ cmakeFree (runMain { f0 with useSharedGgml := true, openblas := true } OS.linux false
        (("DEP_GGML_RS_GGML_WHISPER_LIB_DIR", "/g/lib") :: envBase) fsStaged orc0).1 = false
    ∧ envGet (("DEP_GGML_RS_GGML_WHISPER_LIB_DIR", "/g/lib") :: envBase) "BLAS_INCLUDE_DIRS"
        = none := by
  refine ⟨by decide, by decide, by decide⟩

/-- C8 counterexample: two shared-mode runs with identical capability set,
platform and environment snapshot but different filesystem snapshots (the
ggml cmake-config directory exists in one and not the other) produce
different define sequences, so the plan is not a function of capabilities,
platform and environment alone. -/
theorem c8_counterexample_fs_changes_plan :
    plansOf (sharedBuildRun { f0 with useSharedGgml := true } OS.linux false []
        "/o" "/r" "ggml_whisper" (some "/g/lib") none none
        { ex := fun p => p == "/g/lib/cmake/ggml", hasContents := fun _ => false,
          content := fun _ => none }).1
    ≠ plansOf (sharedBuildRun { f0 with useSharedGgml := true } OS.linux false []
        "/o" "/r" "ggml_whisper" (some "/g/lib") none none fsFalse).1 := by
  decide

/-- C8 (amended): the configuration phase is deterministic in the
capability set, platform, environment snapshot and filesystem snapshot; in
embedded mode the emitted events (including the cmake plan) do not depend
on the filesystem snapshot at all. -/
theorem c8_plan_determinism (f : Features) (os : OS) (dbg : Bool) (env : Env)
    (out root base : String) (libDir binDir includeDir : Option String) (fs1 fs2 : FS) :
    (f.useSharedGgml = false →
       (buildAndLinkRun f os dbg env out root base libDir binDir includeDir fs1).1
         = (buildAndLinkRun f os dbg env out root base libDir binDir includeDir fs2).1)
    ∧ (fs1 = fs2 →
       buildAndLinkRun f os dbg env out root base libDir binDir includeDir fs1
         = buildAndLinkRun f os dbg env out root base libDir binDir includeDir fs2) := by
  constructor
  · intro hsh
    unfold buildAndLinkRun
    rw [if_neg (by simp [hsh])]
    rw [if_neg (by simp [hsh])]
    unfold embeddedBuildRun
    rcases he : embeddedEvents f os dbg env out root with ⟨ev, pan⟩
    cases pan <;> rfl
  · intro hfs
    rw [hfs]

/-- Witness for C8 at concrete embedded runs over two different
filesystems. -/
theorem c8_plan_determinism_witness :
    ((buildAndLinkRun f0 OS.linux false [] "/o" "/r" "b" none none none fsStaged).1
       = (buildAndLinkRun f0 OS.linux false [] "/o" "/r" "b" none none none fsFalse).1)
    ∧ buildAndLinkRun f0 OS.linux false [] "/o" "/r" "b" none none none fsStaged
       = buildAndLinkRun f0 OS.linux false [] "/o" "/r" "b" none none none fsStaged :=
  ⟨(c8_plan_determinism f0 OS.linux false [] "/o" "/r" "b" none none none fsStaged fsFalse).1
     (by decide),
   (c8_plan_determinism f0 OS.linux false [] "/o" "/r" "b" none none none fsStaged fsStaged).2
     rfl⟩
